import Mathlib

/-!
Shallow embedding of `prefect_gcp/aiplatform.py` (the `VertexAICustomTrainingJob`
infrastructure block): job-spec building, display-name generation, submission,
the polling watch loop, result interpretation and the kill path.

Modelling conventions:
  * Python `Dict[str, str]` values are association lists `List (String × String)`
    (a Python dict has unique keys; none of the lemmas below need that invariant).
  * Wall-clock time is discrete: `time.sleep(job_watch_poll_interval)` advances
    the clock by `job_watch_poll_interval` units and remote calls are
    instantaneous, so the elapsed time observed by the `i`-th poll of the watch
    loop is `i * job_watch_poll_interval`.  The source stores these quantities
    as floats; only their ordering matters to the spec, so they are `Nat` here.
  * `uuid4().hex` (fresh on every access of the `job_name` property) is modelled
    by an explicit supply `suffixes : Nat → String` consumed in program order:
    index 0 is the access that names the submitted job (line 275 of the source),
    indices 1 and 2 are the two info-log accesses (lines 279 and 293), index 3
    is the access passed to `task_status.started` (line 370).
  * Exceptions become `Except`; the remote client is a record of scripted
    fallible functions; `get_custom_job` additionally receives the poll index so
    that a script can answer differently on successive polls.
  * Remote interaction and logging relevant to the claims are made observable
    as an explicit event trace (`Event`).
-/

namespace PrefectGcp

/-- States of `google.cloud.aiplatform_v1.types.job_state.JobState` used by the
module. -/
inductive JobState where
  | JOB_STATE_UNSPECIFIED
  | JOB_STATE_QUEUED
  | JOB_STATE_PENDING
  | JOB_STATE_RUNNING
  | JOB_STATE_SUCCEEDED
  | JOB_STATE_FAILED
  | JOB_STATE_CANCELLING
  | JOB_STATE_CANCELLED
  | JOB_STATE_PAUSED
  | JOB_STATE_EXPIRED
  deriving DecidableEq

/-- Point-in-time view of a remote `CustomJob` resource as the module reads it:
`job_run.name`, `job_run.display_name`, `job_run.state`, `job_run.error.message`
(an absent error is the empty message, as in protobuf). -/
structure CustomJobSnapshot where
  name : String
  displayName : String
  state : JobState
  errorMessage : String
  deriving DecidableEq

/-- Configuration fields of `VertexAICustomTrainingJob` (plus the fields it
reads from its base class and credentials):
`name?` is `Infrastructure.name` (used by `_log_prefix`), `command` is
`Infrastructure.command`, `credentials_project` is `gcp_credentials.project`,
`credentials_service_account` is `gcp_credentials._service_account_email`. -/
structure VertexAICustomTrainingJob where
  name? : Option String
  command : List String
  region : String
  image : String
  env : List (String × String)
  machine_type : String
  accelerator_type : Option String
  accelerator_count : Option Nat
  boot_disk_type : String
  boot_disk_size_gb : Nat
  maximum_run_time : Nat
  network : Option String
  reserved_ip_ranges : Option (List String)
  service_account : Option String
  job_watch_poll_interval : Nat
  credentials_project : String
  credentials_service_account : Option String

structure EnvVar where
  name : String
  value : String
  deriving DecidableEq

structure ContainerSpec where
  image_uri : String
  command : List String
  args : List String
  env : List EnvVar
  deriving DecidableEq

structure MachineSpec where
  machine_type : String
  accelerator_type : Option String
  accelerator_count : Option Nat
  deriving DecidableEq

structure DiskSpec where
  boot_disk_type : String
  boot_disk_size_gb : Nat
  deriving DecidableEq

structure WorkerPoolSpec where
  container_spec : ContainerSpec
  machine_spec : MachineSpec
  replica_count : Nat
  disk_spec : DiskSpec
  deriving DecidableEq

/-- Scheduling block; `timeout` is the wire form of `maximum_run_time`. -/
structure Scheduling where
  timeout : Nat
  deriving DecidableEq

structure CustomJobSpec where
  worker_pool_specs : List WorkerPoolSpec
  service_account : String
  scheduling : Scheduling
  network : Option String
  reserved_ip_ranges : Option (List String)
  deriving DecidableEq

/-- Errors raised by the module.  The source raises `ValueError` for both
locally detectable configuration problems (the spec calls these
`ConfigurationError`) and `RuntimeError` for the watch timeout
(`WatchTimeoutError` in the spec) and for a terminal snapshot carrying an error
message (`RemoteExecutionError` in the spec); a failing `create_custom_job`
propagates (`SubmissionError`), and an uncaught exception escaping
`get_custom_job` inside the watch loop propagates as well (`pollError`). -/
inductive RunError where
  | configurationError (msg : String)
  | submissionError (msg : String)
  | pollError (msg : String)
  | watchTimeoutError (elapsed : Nat)
  | remoteExecutionError (msg : String)
  deriving DecidableEq

/-- Errors raised by the kill path: `InfrastructureNotFound`
(`JobNotFoundError` in the spec) and any other re-raised cancellation failure
(`CancellationError` in the spec). -/
inductive KillError where
  | jobNotFound (msg : String)
  | cancellationError (msg : String)
  deriving DecidableEq

/-- Result value `VertexAICustomTrainingJobResult(identifier=..., status_code=...)`. -/
structure VertexAICustomTrainingJobResult where
  identifier : String
  status_code : Nat
  deriving DecidableEq

/-- Remote calls the module can issue. -/
inductive RemoteCall where
  | createCustomJob (parent displayName : String)
  | getCustomJob (name : String)
  | cancelCustomJob (name : String)
  deriving DecidableEq

/-- Observable events in program order: remote calls, the single-shot
`task_status.started(...)` callback, the info-level state-transition log of the
watch loop, and its debug-level "Job not found." log. -/
inductive Event where
  | remoteCall (c : RemoteCall)
  | started (displayName : String)
  | transitionLog (oldState newState : JobState)
  | debugJobNotFound
  deriving DecidableEq

/-- Scripted remote `JobServiceClient`.  `get_custom_job` receives the poll
index first so a script can answer differently on successive polls. -/
structure JobServiceClient where
  create_custom_job : String → String → CustomJobSpec → Except String CustomJobSnapshot
  get_custom_job : Nat → String → Except String CustomJobSnapshot
  cancel_custom_job : String → Except String Unit

/-! ### Small helpers (Python semantics) -/

/-- Python `str.split(sep)` for a one-character separator, on char lists. -/
def splitChars (sep : Char) : List Char → List (List Char)
  | [] => [[]]
  | c :: cs =>
    let rest := splitChars sep cs
    if c == sep then [] :: rest
    else
      match rest with
      | [] => [[c]]
      | r :: rs => (c :: r) :: rs

/-- Python `s.split(sep)` for a one-character separator
(`"".split("/") == [""]`, `"a/b".split("/") == ["a", "b"]`). -/
def pySplit (s : String) (sep : Char) : List String :=
  (splitChars sep s.data).map fun l => String.mk l

/-- Character-list version of "needle starts the haystack". -/
def charsPre : List Char → List Char → Bool
  | [], _ => true
  | _ :: _, [] => false
  | a :: as, b :: bs => a == b && charsPre as bs

/-- Character-list version of Python substring containment. -/
def charsSub (needle : List Char) : List Char → Bool
  | [] => charsPre needle []
  | b :: bs => charsPre needle (b :: bs) || charsSub needle bs

/-- Python `needle in haystack` on strings. -/
def strContainsSubstr (haystack needle : String) : Bool :=
  charsSub needle.data haystack.data

/-- Python truthiness-aware `a or b` on optional strings followed by the
source's `is None` check: `some ""` is falsy, so it falls through to `b`. -/
def pyOrStr (a b : Option String) : Option String :=
  match a with
  | some s => if s = "" then b else some s
  | none => b

/-- First value bound to key `k` in a Python-dict-as-association-list. -/
def lookup? (d : List (String × String)) (k : String) : Option String :=
  (d.find? fun p => p.1 == k).map Prod.snd

/-- Python `\x7b**a, **b\x7d.items()`: the keys of `a` in order with values
overridden by `b` on collision, followed by the keys of `b` not in `a`. -/
def dictUnion (a b : List (String × String)) : List (String × String) :=
  (a.map fun p => (p.1, (lookup? b p.1).getD p.2)) ++
    b.filter fun p => (lookup? a p.1).isNone

/-- Lookup by name in the `env` entry list of a container spec. -/
def envLookup (l : List EnvVar) (k : String) : Option String :=
  (l.find? fun ev => ev.name == k).map EnvVar.value

/-! ### The module's operations -/

/-- Property `job_name` (source lines 191-207).  Each access generates a fresh
`uuid4().hex`; the access's suffix is passed in explicitly.  Splitting the
image on `/` and indexing segment 2 raises `ValueError` (a
`ConfigurationError`) when the image has fewer than 3 path segments. -/
def job_name (self : VertexAICustomTrainingJob) (uniqueSuffix : String) :
    Except RunError String :=
  match (pySplit self.image '/')[2]? with
  | none =>
      .error (.configurationError
        "The provided image must be from either Google Container Registry or Google Artifact Registry")
  | some repo_name => .ok (repo_name ++ "-" ++ uniqueSuffix)

/-- Property `_log_prefix` (source lines 440-448); the `!r` quoting of the
block name is dropped. -/
def logLabel (self : VertexAICustomTrainingJob) : String :=
  match self.name? with
  | some n => "VertexAICustomTrainingJob " ++ n
  | none => "VertexAICustomTrainingJob"

/-- Method `_build_job_spec` (source lines 215-266).  `base` stands for the
externally defined `self._base_environment()` mapping; the merged environment
is the Python dict merge with the user mapping `self.env` winning.  The only
failure is the missing-service-account `ValueError`; the image reference is
not inspected here. -/
def build_job_spec (self : VertexAICustomTrainingJob)
    (base : List (String × String)) : Except RunError CustomJobSpec :=
  let env_list : List EnvVar :=
    (dictUnion base self.env).map fun p => { name := p.1, value := p.2 }
  let container_spec : ContainerSpec :=
    { image_uri := self.image, command := self.command, args := [], env := env_list }
  let machine_spec : MachineSpec :=
    { machine_type := self.machine_type
      accelerator_type := self.accelerator_type
      accelerator_count := self.accelerator_count }
  let worker_pool_spec : WorkerPoolSpec :=
    { container_spec := container_spec
      machine_spec := machine_spec
      replica_count := 1
      disk_spec :=
        { boot_disk_type := self.boot_disk_type
          boot_disk_size_gb := self.boot_disk_size_gb } }
  match pyOrStr self.service_account self.credentials_service_account with
  | none =>
      .error (.configurationError
        "A service account is required for the Vertex job. A service account could not be detected in the attached credentials; please set a service account explicitly")
  | some service_account =>
      .ok { worker_pool_specs := [worker_pool_spec]
            service_account := service_account
            scheduling := { timeout := self.maximum_run_time }
            network := self.network
            reserved_ip_ranges := self.reserved_ip_ranges }

/-- Models `str(custom_job)` (protobuf rendering, done by the external client
library).  The claims constrain only that `preview` performs no remote
interaction, not the rendered text. -/
def renderCustomJob (display_name : String) (job_spec : CustomJobSpec) : String :=
  "display_name: " ++ display_name ++ "; service_account: " ++ job_spec.service_account
    ++ "; image_uri: " ++
      String.join ((job_spec.worker_pool_specs.map fun w => w.container_spec.image_uri))

/-- Method `preview` (source lines 209-213): builds the job spec, derives a
display name and renders the would-be payload.  Its event trace is empty: the
body never touches a remote client. -/
def preview (self : VertexAICustomTrainingJob) (base : List (String × String))
    (uniqueSuffix : String) : Except RunError String × List Event :=
  (match build_job_spec self base with
   | .error e => .error e
   | .ok job_spec =>
     match job_name self uniqueSuffix with
     | .error e => .error e
     | .ok display_name => .ok (renderCustomJob display_name job_spec),
   [])

/-- The `parent=` resource string of `create_custom_job` (source line 285). -/
def parentResource (self : VertexAICustomTrainingJob) : String :=
  "projects/" ++ self.credentials_project ++ "/locations/" ++ self.region

/-- Method `_create_and_begin_job` (source lines 268-297).  Accesses the
`job_name` property at suffix index `k` for the submitted display name and (in
its two info logs) at `k + 1` and `k + 2`; returns the next unused suffix
index alongside the created job run. -/
def create_and_begin_job (self : VertexAICustomTrainingJob)
    (job_spec : CustomJobSpec) (client : JobServiceClient)
    (suffixes : Nat → String) (k : Nat) :
    Except RunError (CustomJobSnapshot × Nat) × List Event :=
  match job_name self (suffixes k) with
  | .error e => (.error e, [])
  | .ok display_name =>
    let parent := parentResource self
    match client.create_custom_job parent display_name job_spec with
    | .error e =>
        (.error (.submissionError e), [.remoteCall (.createCustomJob parent display_name)])
    | .ok custom_job_run =>
        (.ok (custom_job_run, k + 3), [.remoteCall (.createCustomJob parent display_name)])

/-- Outcome of the watch loop. -/
inductive WatchResult where
  | ok (finalRun : CustomJobSnapshot)
  | timeoutErr (elapsed : Nat)
  | pollErr (msg : String)
  deriving DecidableEq

/-- Log emitted by one loop iteration of `_watch_job_run` (source lines
320-334): an info transition line when the polled state differs from
`last_state`, else the debug-severity "Job not found." line. -/
def transitionEvent (last_state state : JobState) : Event :=
  if state = last_state then .debugJobNotFound
  else .transitionLog last_state state

/-- The `if state != last_state: last_state = state` update (source lines
320-330): the next `last_state` is the polled state in both branches. -/
def nextLastState (last_state state : JobState) : JobState :=
  if state = last_state then last_state else state

/-- The deadline test `timeout is not None and elapsed_time > timeout`
(source line 337). -/
def deadlineExceeded (timeout : Option Nat) (elapsed : Nat) : Bool :=
  match timeout with
  | some t => decide (t < elapsed)
  | none => false

/-- One iteration structure of the `while state not in until_states` loop of
`_watch_job_run` (source lines 314-342), entered with `last_state` and poll
index `i` (so the elapsed time observed by this iteration is
`i * pollInterval`).  Each iteration: call `get_custom_job` — an exception from
it propagates, there is no try/except around the call; log a transition when
the state changed, else the debug "Job not found." line; then check the
deadline (`elapsed_time > timeout`, checked before the terminal-state exit, so
a timeout observed together with a terminal state still raises); finally sleep
and loop.  `fuel` bounds the recursion; `none` means fuel ran out before the
loop finished. -/
def watchGo (get : Nat → String → Except String CustomJobSnapshot)
    (full_job_name : String) (untilStates : List JobState)
    (pollInterval : Nat) (timeout : Option Nat) :
    Nat → JobState → Nat → Option (WatchResult × List Event)
  | _, _, 0 => none
  | i, last_state, fuel + 1 =>
    match get i full_job_name with
    | .error e => some (.pollErr e, [.remoteCall (.getCustomJob full_job_name)])
    | .ok job_run =>
      if deadlineExceeded timeout (i * pollInterval) then
        some (.timeoutErr (i * pollInterval),
          [.remoteCall (.getCustomJob full_job_name),
            transitionEvent last_state job_run.state])
      else if job_run.state ∈ untilStates then
        some (.ok job_run,
          [.remoteCall (.getCustomJob full_job_name),
            transitionEvent last_state job_run.state])
      else
        match watchGo get full_job_name untilStates pollInterval timeout (i + 1)
            (nextLastState last_state job_run.state) fuel with
        | none => none
        | some (res, evs) =>
            some (res, [.remoteCall (.getCustomJob full_job_name),
              transitionEvent last_state job_run.state] ++ evs)

/-- Method `_watch_job_run` (source lines 299-344): initialises
`state = JOB_STATE_UNSPECIFIED`, `last_state = current_state` and the clock,
then runs the loop.  When `JOB_STATE_UNSPECIFIED ∈ untilStates` the loop body
would never run and the source would hit an unbound `job_run`; `run` never
passes such a set, and this case is mapped to `none`. -/
def watch_job_run (self : VertexAICustomTrainingJob) (full_job_name : String)
    (client : JobServiceClient) (current_state : JobState)
    (untilStates : List JobState) (timeout : Option Nat) (fuel : Nat) :
    Option (WatchResult × List Event) :=
  if JobState.JOB_STATE_UNSPECIFIED ∈ untilStates then none
  else
    watchGo client.get_custom_job full_job_name untilStates
      self.job_watch_poll_interval timeout 0 current_state fuel

/-- The `until_states` tuple passed by `run` (source lines 376-381). -/
def until_states_run : List JobState :=
  [.JOB_STATE_SUCCEEDED, .JOB_STATE_FAILED, .JOB_STATE_CANCELLED, .JOB_STATE_EXPIRED]

/-- Full observable outcome of one `run()` call: the returned value or raised
error, the final snapshot the interpretation step saw (when the watch finished
normally), and the event trace. -/
structure RunTrace where
  result : Except RunError VertexAICustomTrainingJobResult
  finalRun : Option CustomJobSnapshot
  events : List Event

/-- Method `run` (source lines 346-392): build the spec, submit, fire the
optional `task_status.started(self.job_name)` callback (a fresh `job_name`
property access, suffix index `k`), watch until a terminal state with
`timeout = maximum_run_time`, then interpret the final snapshot: a non-empty
`error.message` raises, otherwise the result carries
`status_code = 0` iff the final state is `JOB_STATE_SUCCEEDED`. -/
def run (self : VertexAICustomTrainingJob) (base : List (String × String))
    (suffixes : Nat → String) (client : JobServiceClient)
    (taskStatus : Bool) (fuel : Nat) : Option RunTrace :=
  match build_job_spec self base with
  | .error e => some { result := .error e, finalRun := none, events := [] }
  | .ok job_spec =>
    match create_and_begin_job self job_spec client suffixes 0 with
    | (.error e, evs) => some { result := .error e, finalRun := none, events := evs }
    | (.ok (job_run, k), evs) =>
      match (match taskStatus with
        | true => (job_name self (suffixes k)).map fun n => [n]
        | false => .ok []) with
      | .error e => some { result := .error e, finalRun := none, events := evs }
      | .ok startedNames =>
        let evs1 := evs ++ startedNames.map .started
        match watch_job_run self job_run.name client job_run.state until_states_run
            (some self.maximum_run_time) fuel with
        | none => none
        | some (.pollErr e, wevs) =>
            some { result := .error (.pollError e), finalRun := none, events := evs1 ++ wevs }
        | some (.timeoutErr t, wevs) =>
            some { result := .error (.watchTimeoutError t), finalRun := none,
                   events := evs1 ++ wevs }
        | some (.ok final_job_run, wevs) =>
            if final_job_run.errorMessage ≠ "" then
              some { result := .error (.remoteExecutionError
                       (logLabel self ++ ": " ++ final_job_run.errorMessage)),
                     finalRun := some final_job_run, events := evs1 ++ wevs }
            else
              let res : VertexAICustomTrainingJobResult :=
                { identifier := final_job_run.displayName
                  status_code :=
                    if final_job_run.state = .JOB_STATE_SUCCEEDED then 0 else 1 }
              some { result := .ok res, finalRun := some final_job_run,
                     events := evs1 ++ wevs }

/-- Method `_kill_job` (source lines 419-438): issue the cancel request; on an
exception whose text contains "does not exist" raise `InfrastructureNotFound`,
otherwise re-raise the original exception unchanged. -/
def kill_job (client : JobServiceClient) (full_job_name : String) :
    Except KillError Unit :=
  match client.cancel_custom_job full_job_name with
  | .ok _ => .ok ()
  | .error exc =>
    if strContainsSubstr exc "does not exist" then
      .error (.jobNotFound ("Cannot stop Vertex AI job; the job name " ++ full_job_name
        ++ " could not be found."))
    else
      .error (.cancellationError exc)

/-- Method `kill` (source lines 394-417): resolves a client (external) and
delegates to `_kill_job`; `grace_seconds` is accepted and never used, exactly
as in the source.  The cancel call is issued exactly once. -/
def kill (client : JobServiceClient) (identifier : String) (grace_seconds : Nat) :
    Except KillError Unit × List Event :=
  let _ := grace_seconds
  (kill_job client identifier, [.remoteCall (.cancelCustomJob identifier)])

/-! ### Concrete fixtures used by counterexamples and witnesses -/

/-- A well-formed configuration: 3-segment image, explicit service account,
poll interval 1, generous deadline. -/
def cfgOk : VertexAICustomTrainingJob :=
  { name? := none
    command := ["echo", "hello"]
    region := "us-east1"
    image := "gcr.io/proj/repo"
    env := []
    machine_type := "n1-standard-4"
    accelerator_type := none
    accelerator_count := none
    boot_disk_type := "pd-ssd"
    boot_disk_size_gb := 100
    maximum_run_time := 100
    network := none
    reserved_ip_ranges := none
    service_account := some "sa"
    job_watch_poll_interval := 1
    credentials_project := "proj"
    credentials_service_account := none }

/-- The same configuration with a 2-segment image reference. -/
def cfgShort : VertexAICustomTrainingJob :=
  { cfgOk with image := "a/b" }

/-- Deterministic distinct stand-ins for `uuid4().hex`: the `n`-th suffix is
`n` repetitions of `x`. -/
def suffN : Nat → String :=
  fun n => String.mk (List.replicate n 'x')

/-- Remote job resource name used by the scripted clients. -/
def fullNameFix : String :=
  "projects/proj/locations/us-east1/customJobs/123"

/-- Snapshot factory for the scripted clients. -/
def snapFix (st : JobState) (msg : String) : CustomJobSnapshot :=
  { name := fullNameFix, displayName := "repo-", state := st, errorMessage := msg }

/-- Scripted client builder: fixed creation answer, per-poll-index answers,
cancel always succeeds. -/
def clientOf (creation : Except String CustomJobSnapshot)
    (polls : Nat → Except String CustomJobSnapshot) : JobServiceClient :=
  { create_custom_job := fun _ _ _ => creation
    get_custom_job := fun i _ => polls i
    cancel_custom_job := fun _ => .ok () }

/-- Client whose polls always raise: first poll fails with a transient error. -/
def c1client : JobServiceClient :=
  clientOf (.ok (snapFix .JOB_STATE_QUEUED "")) fun _ => .error "transient error"

/-- Client whose first poll reports FAILED with error message "boom". -/
def c2client : JobServiceClient :=
  clientOf (.ok (snapFix .JOB_STATE_QUEUED ""))
    fun _ => .ok (snapFix .JOB_STATE_FAILED "boom")

/-- Client whose first poll reports FAILED with an empty error message. -/
def c2eclient : JobServiceClient :=
  clientOf (.ok (snapFix .JOB_STATE_QUEUED ""))
    fun _ => .ok (snapFix .JOB_STATE_FAILED "")

/-- Poll script QUEUED, QUEUED, RUNNING, SUCCEEDED. -/
def c6states : Nat → JobState
  | 0 => .JOB_STATE_QUEUED
  | 1 => .JOB_STATE_QUEUED
  | 2 => .JOB_STATE_RUNNING
  | _ => .JOB_STATE_SUCCEEDED

/-- Client scripted with `c6states`, initial state QUEUED at submission. -/
def c6client : JobServiceClient :=
  clientOf (.ok (snapFix .JOB_STATE_QUEUED "")) fun i => .ok (snapFix (c6states i) "")

/-- Client that never reaches a terminal state. -/
def c7client : JobServiceClient :=
  clientOf (.ok (snapFix .JOB_STATE_QUEUED ""))
    fun _ => .ok (snapFix .JOB_STATE_RUNNING "")

/-- Client whose creation call faithfully stores the submitted display name,
with an immediately succeeding job. -/
def c8client : JobServiceClient :=
  { create_custom_job := fun _ dn _ =>
      .ok { name := fullNameFix, displayName := dn,
            state := .JOB_STATE_QUEUED, errorMessage := "" }
    get_custom_job := fun _ _ => .ok (snapFix .JOB_STATE_SUCCEEDED "")
    cancel_custom_job := fun _ => .ok () }

/-- Client whose first poll reports SUCCEEDED while carrying a non-empty
error message. -/
def c10client : JobServiceClient :=
  clientOf (.ok (snapFix .JOB_STATE_QUEUED ""))
    fun _ => .ok (snapFix .JOB_STATE_SUCCEEDED "late failure")

/-- Client used only through its cancel endpoint. -/
def cancelClientOf (ans : Except String Unit) : JobServiceClient :=
  { create_custom_job := fun _ _ _ => .error "unused"
    get_custom_job := fun _ _ => .error "unused"
    cancel_custom_job := fun _ => ans }

/-- Client never contacted (used with invalid configurations). -/
def c4client : JobServiceClient :=
  clientOf (.error "unused") fun _ => .error "unused"

/-- Discriminator: did spec building succeed? -/
def isOkSpec : Except RunError CustomJobSpec → Bool
  | .ok _ => true
  | .error _ => false

/-- Configuration with a user environment overriding key KEY. -/
def cfgEnv : VertexAICustomTrainingJob :=
  { cfgOk with env := [("KEY", "override"), ("ONLY_USER", "u1")] }

/-- Base environment defining KEY and ONLY_BASE. -/
def baseEnv : List (String × String) :=
  [("KEY", "base"), ("ONLY_BASE", "b1")]

/-! ### Event classifiers -/

/-- True exactly on `task_status.started` callback events. -/
def isStartedEvent : Event → Bool
  | .started _ => true
  | _ => false

/-- True exactly on info-level state-transition log events. -/
def isTransitionEvent : Event → Bool
  | .transitionLog _ _ => true
  | _ => false

/-- True exactly on `get_custom_job` poll calls. -/
def isGetEvent : Event → Bool
  | .remoteCall (.getCustomJob _) => true
  | _ => false

/-! ### Helper lemmas: substrings -/

theorem charsPre_refl (l : List Char) : charsPre l l = true := by
  induction l with
  | nil => rfl
  | cons a as ih => simp [charsPre, ih]

theorem charsSub_append (pre n : List Char) : charsSub n (pre ++ n) = true := by
  induction pre with
  | nil =>
    cases n with
    | nil => rfl
    | cons b bs => simp [charsSub, charsPre_refl]
  | cons c cs ih => simp [charsSub, ih]

/-- Any string contains every suffix obtained by appending it to a prefix
string: this is the "raised message contains the remote error message" fact. -/
theorem strContainsSubstr_append (a m : String) :
    strContainsSubstr (a ++ m) m = true := by
  unfold strContainsSubstr
  rw [String.data_append]
  exact charsSub_append a.data m.data

/-! ### Helper lemmas: Python dict merge -/

theorem lookup?_nil (k : String) : lookup? [] k = none := rfl

theorem lookup?_cons (p : String × String) (l : List (String × String)) (k : String) :
    lookup? (p :: l) k = if p.1 == k then some p.2 else lookup? l k := by
  by_cases h : p.1 == k
  · simp [lookup?, List.find?_cons_of_pos, h]
  · simp [lookup?, List.find?_cons_of_neg, h]

theorem lookup?_append (l₁ l₂ : List (String × String)) (k : String) :
    lookup? (l₁ ++ l₂) k = (lookup? l₁ k).or (lookup? l₂ k) := by
  simp only [lookup?, List.find?_append]
  cases l₁.find? fun p => p.1 == k <;> simp

theorem lookup?_mapOverride (a b : List (String × String)) (k : String) :
    lookup? (a.map fun p => (p.1, (lookup? b p.1).getD p.2)) k
      = (lookup? a k).map fun v => (lookup? b k).getD v := by
  induction a with
  | nil => rfl
  | cons p a ih =>
    by_cases h : p.1 == k
    · have hk : p.1 = k := by simpa using h
      subst hk
      simp [List.map_cons, lookup?_cons, h]
    · simp [List.map_cons, lookup?_cons, h, ih]

theorem lookup?_filter_of_none (a b : List (String × String)) (k : String)
    (h : lookup? a k = none) :
    lookup? (b.filter fun p => (lookup? a p.1).isNone) k = lookup? b k := by
  induction b with
  | nil => rfl
  | cons q b ih =>
    by_cases hq : q.1 == k
    · have hk : q.1 = k := by simpa using hq
      subst hk
      simp [List.filter_cons, h, lookup?_cons, hq]
    · by_cases hkeep : (lookup? a q.1).isNone
      · simp [List.filter_cons, hkeep, lookup?_cons, hq, ih]
      · simp [List.filter_cons, hkeep, lookup?_cons, hq, ih]

theorem lookup?_filter_of_some (a b : List (String × String)) (k : String) (v : String)
    (h : lookup? a k = some v) :
    lookup? (b.filter fun p => (lookup? a p.1).isNone) k = none := by
  induction b with
  | nil => rfl
  | cons q b ih =>
    by_cases hq : q.1 == k
    · have hk : q.1 = k := by simpa using hq
      subst hk
      simp [List.filter_cons, h, ih]
    · by_cases hkeep : (lookup? a q.1).isNone
      · simp [List.filter_cons, hkeep, lookup?_cons, hq, ih]
      · simp [List.filter_cons, hkeep, lookup?_cons, hq, ih]

/-- Lookup in the Python merge `\x7b**a, **b\x7d`: entries of `b` win on key
collision, entries present in only one mapping keep that mapping's value. -/
theorem lookup?_dictUnion (a b : List (String × String)) (k : String) :
    lookup? (dictUnion a b) k = (lookup? b k).or (lookup? a k) := by
  unfold dictUnion
  rw [lookup?_append, lookup?_mapOverride]
  cases ha : lookup? a k with
  | none =>
    rw [lookup?_filter_of_none a b k ha]
    cases lookup? b k <;> simp
  | some v =>
    rw [lookup?_filter_of_some a b k v ha]
    cases lookup? b k <;> simp

theorem envLookup_mapMk (l : List (String × String)) (k : String) :
    envLookup (l.map fun p => { name := p.1, value := p.2 }) k = lookup? l k := by
  induction l with
  | nil => rfl
  | cons p l ih =>
    by_cases h : p.1 == k
    · simp [envLookup, lookup?, List.map_cons, List.find?_cons_of_pos, h]
    · simpa [envLookup, lookup?, List.map_cons, List.find?_cons_of_neg, h] using ih

/-! ### Helper lemmas: spec building and naming -/

theorem build_job_spec_error_shape (self : VertexAICustomTrainingJob)
    (base : List (String × String)) (e : RunError)
    (h : build_job_spec self base = .error e) :
    ∃ m, e = .configurationError m := by
  unfold build_job_spec at h
  cases hsa : pyOrStr self.service_account self.credentials_service_account with
  | none =>
    rw [hsa] at h
    exact ⟨_, (Except.error.injEq .. ▸ h :).symm⟩
  | some sa => rw [hsa] at h; cases h

theorem job_name_ok_shape (self : VertexAICustomTrainingJob) (s dn : String)
    (h : job_name self s = .ok dn) :
    ∃ repo, (pySplit self.image '/')[2]? = some repo ∧ dn = repo ++ "-" ++ s := by
  unfold job_name at h
  cases hidx : (pySplit self.image '/')[2]? with
  | none => rw [hidx] at h; cases h
  | some repo =>
    rw [hidx] at h
    exact ⟨repo, rfl, ((Except.ok.injEq ..).mp h).symm⟩

theorem job_name_short_image (self : VertexAICustomTrainingJob) (s : String)
    (him : (pySplit self.image '/').length < 3) :
    job_name self s = .error (.configurationError
      "The provided image must be from either Google Container Registry or Google Artifact Registry") := by
  have hidx : (pySplit self.image '/')[2]? = none :=
    List.getElem?_eq_none (by omega)
  unfold job_name
  rw [hidx]

/-! ### Helper lemmas: the watch loop -/

theorem isStartedEvent_remoteCall (c : RemoteCall) :
    isStartedEvent (.remoteCall c) = false := rfl

theorem isStartedEvent_transitionEvent (a b : JobState) :
    isStartedEvent (transitionEvent a b) = false := by
  unfold transitionEvent
  split <;> rfl

theorem isGetEvent_transitionEvent (a b : JobState) :
    isGetEvent (transitionEvent a b) = false := by
  unfold transitionEvent
  split <;> rfl

theorem isGetEvent_get (n : String) :
    isGetEvent (.remoteCall (.getCustomJob n)) = true := rfl

theorem watchGo_no_started (get : Nat → String → Except String CustomJobSnapshot)
    (name : String) (u : List JobState) (p : Nat) (t : Option Nat) :
    ∀ fuel i last res evs,
      watchGo get name u p t i last fuel = some (res, evs) →
      evs.filter isStartedEvent = [] := by
  intro fuel
  induction fuel with
  | zero => intro i last res evs h; simp [watchGo] at h
  | succ n ih =>
    intro i last res evs h
    rw [watchGo] at h
    split at h
    · cases h
      simp [List.filter_cons, isStartedEvent_remoteCall]
    · split at h
      · cases h
        simp [List.filter_cons, isStartedEvent_remoteCall, isStartedEvent_transitionEvent]
      · split at h
        · cases h
          simp [List.filter_cons, isStartedEvent_remoteCall, isStartedEvent_transitionEvent]
        · split at h
          · cases h
          · rename_i res' evs' heq
            cases h
            have hrest := ih _ _ _ _ heq
            simp [List.filter_append, List.filter_cons, isStartedEvent_remoteCall,
              isStartedEvent_transitionEvent, hrest]

theorem deadline_hit (T p : Nat) (hp : 0 < p) : T < (T / p + 1) * p := by
  have hmod : T % p < p := Nat.mod_lt _ hp
  have hdm : p * (T / p) + T % p = T := Nat.div_add_mod T p
  calc T = p * (T / p) + T % p := hdm.symm
  _ < p * (T / p) + p := by omega
  _ = (T / p + 1) * p := by ring

theorem deadline_not_hit (T p i : Nat) (hi : i ≤ T / p) :
    deadlineExceeded (some T) (i * p) = false := by
  have h1 : i * p ≤ (T / p) * p := Nat.mul_le_mul_right p hi
  have h2 : (T / p) * p ≤ T := Nat.div_mul_le_self T p
  simp [deadlineExceeded]
  omega

/-- From an iteration index `i` that has not yet reached the deadline, a script
whose polls always succeed with a non-terminal state drives the loop to the
timeout raise at iteration `T / p + 1`, having polled once per iteration on
the way. -/
theorem watchGo_timeout_aux (get : Nat → String → Except String CustomJobSnapshot)
    (name : String) (u : List JobState) (T p : Nat) (hp : 0 < p)
    (hok : ∀ i, ∃ s, get i name = .ok s ∧ s.state ∉ u) :
    ∀ fuel i last, i ≤ T / p + 1 → T / p + 1 - i < fuel →
      ∃ evs, watchGo get name u p (some T) i last fuel
          = some (.timeoutErr ((T / p + 1) * p), evs) ∧
        (evs.filter isGetEvent).length = (T / p + 1 - i) + 1 := by
  intro fuel
  induction fuel with
  | zero => intro i last h1 h2; omega
  | succ n ih =>
    intro i last h1 h2
    obtain ⟨s, hg, hns⟩ := hok i
    by_cases hi : i = T / p + 1
    · subst hi
      have hT : deadlineExceeded (some T) ((T / p + 1) * p) = true := by
        simp [deadlineExceeded]
        exact deadline_hit T p hp
      refine ⟨[.remoteCall (.getCustomJob name), transitionEvent last s.state], ?_, ?_⟩
      · rw [watchGo, hg, hT]
        simp
      · simp [List.filter_cons, isGetEvent_get, isGetEvent_transitionEvent]
    · have hi' : i ≤ T / p := by omega
      have hnotT := deadline_not_hit T p i hi'
      obtain ⟨evs', heq, hlen⟩ :=
        ih (i + 1) (nextLastState last s.state) (by omega) (by omega)
      refine ⟨[.remoteCall (.getCustomJob name), transitionEvent last s.state] ++ evs',
        ?_, ?_⟩
      · rw [watchGo, hg, hnotT]
        simp only [Bool.false_eq_true, if_false]
        rw [if_neg hns, heq]
      · simp [List.filter_append, List.filter_cons, isGetEvent_get,
          isGetEvent_transitionEvent, hlen]
        omega

/-- Exhaustive outcome analysis of `run`: either the watch did not finish with
a final snapshot and the call raised, or it produced a final snapshot and the
result is exactly the source's interpretation of it — raise when the error
message is non-empty, otherwise a result with `status_code` 0 exactly on
`JOB_STATE_SUCCEEDED`. -/
theorem run_spec (self : VertexAICustomTrainingJob) (base : List (String × String))
    (suffixes : Nat → String) (client : JobServiceClient) (ts : Bool) (fuel : Nat)
    (trace : RunTrace)
    (h : run self base suffixes client ts fuel = some trace) :
    (trace.finalRun = none ∧ ∃ e, trace.result = .error e) ∨
    (∃ final, trace.finalRun = some final ∧
      (if final.errorMessage = "" then
        trace.result = .ok ⟨final.displayName,
          if final.state = .JOB_STATE_SUCCEEDED then 0 else 1⟩
      else
        trace.result = .error (.remoteExecutionError
          (logLabel self ++ ": " ++ final.errorMessage)))) := by
  unfold run at h
  split at h
  · cases h
    exact .inl ⟨rfl, _, rfl⟩
  · split at h
    · cases h
      exact .inl ⟨rfl, _, rfl⟩
    · split at h
      · cases h
        exact .inl ⟨rfl, _, rfl⟩
      · split at h
        · cases h
        · cases h
          exact .inl ⟨rfl, _, rfl⟩
        · cases h
          exact .inl ⟨rfl, _, rfl⟩
        · rename_i final_job_run wevs hwatch
          split at h
          · cases h
            rename_i hne
            refine .inr ⟨final_job_run, rfl, ?_⟩
            rw [if_neg (by simpa using hne)]
          · cases h
            rename_i hne
            refine .inr ⟨final_job_run, rfl, ?_⟩
            rw [if_pos (by simpa using hne)]

/-! ### Claim C2 -/

/-- C2: for every run whose final snapshot has state FAILED: with a non-empty
error message, `run()` raises the remote-execution error
(`RuntimeError(f"\x7bself._log_prefix\x7d: \x7berror_msg\x7d")` in the source,
`RemoteExecutionError` in the spec) whose message contains that error message;
with an empty error message it does not raise and returns a result with
`status_code = 1`. -/
theorem c2_failed_snapshot_interpretation
    (self : VertexAICustomTrainingJob) (base : List (String × String))
    (suffixes : Nat → String) (client : JobServiceClient) (ts : Bool) (fuel : Nat)
    (trace : RunTrace) (final : CustomJobSnapshot)
    (hrun : run self base suffixes client ts fuel = some trace)
    (hfin : trace.finalRun = some final)
    (hstate : final.state = .JOB_STATE_FAILED) :
    (final.errorMessage ≠ "" →
      trace.result = .error (.remoteExecutionError
        (logLabel self ++ ": " ++ final.errorMessage)) ∧
      strContainsSubstr (logLabel self ++ ": " ++ final.errorMessage)
        final.errorMessage = true) ∧
    (final.errorMessage = "" →
      trace.result = .ok ⟨final.displayName, 1⟩) := by
  rcases run_spec self base suffixes client ts fuel trace hrun with ⟨hn, _⟩ | ⟨f, hf, hcond⟩
  · rw [hfin] at hn
    cases hn
  · rw [hfin] at hf
    obtain rfl : f = final := by injection hf with h; exact h.symm
    constructor
    · intro hne
      rw [if_neg hne] at hcond
      exact ⟨hcond, strContainsSubstr_append (logLabel self ++ ": ") _⟩
    · intro he
      rw [if_pos he] at hcond
      rw [hcond, hstate]
      simp

/-- Witness for C2: on the FAILED-with-"boom" script the concrete run raises
with a message containing "boom"; on the FAILED-with-empty-message script it
returns `status_code = 1` without raising. -/
theorem c2_witness :
    (run cfgOk [] suffN c2client true 20).map RunTrace.result
      = some (.error (.remoteExecutionError (logLabel cfgOk ++ ": " ++ "boom"))) ∧
    strContainsSubstr (logLabel cfgOk ++ ": " ++ "boom") "boom" = true ∧
    (run cfgOk [] suffN c2eclient true 20).map RunTrace.result
      = some (.ok ⟨"repo-", 1⟩) := by
  have h1 := c2_failed_snapshot_interpretation
    cfgOk [] suffN c2client true 20 _ _ rfl rfl rfl
  have h2 := c2_failed_snapshot_interpretation
    cfgOk [] suffN c2eclient true 20 _ _ rfl rfl rfl
  obtain ⟨hres, hsub⟩ := h1.1 (by decide)
  exact ⟨congrArg some hres, hsub, congrArg some (h2.2 rfl)⟩

/-! ### Claim C3 -/

/-- C3: `kill(identifier)` translates a cancel failure whose text contains
"does not exist" into the distinguished not-found error
(`InfrastructureNotFound`, the spec's `JobNotFoundError`), re-raises any other
cancel failure unchanged (the spec's `CancellationError`), and raises nothing
when the cancel call succeeds. -/
theorem c3_kill_error_translation (client : JobServiceClient) (identifier : String)
    (grace : Nat) :
    (client.cancel_custom_job identifier = .ok () →
      (kill client identifier grace).1 = .ok ()) ∧
    (∀ exc, client.cancel_custom_job identifier = .error exc →
      (strContainsSubstr exc "does not exist" = true →
        (kill client identifier grace).1 = .error (.jobNotFound
          ("Cannot stop Vertex AI job; the job name " ++ identifier
            ++ " could not be found."))) ∧
      (strContainsSubstr exc "does not exist" = false →
        (kill client identifier grace).1 = .error (.cancellationError exc))) := by
  refine ⟨fun h => ?_, fun exc h => ⟨fun hs => ?_, fun hs => ?_⟩⟩
  · simp [kill, kill_job, h]
  · simp [kill, kill_job, h, hs]
  · simp [kill, kill_job, h, hs]

/-- Witness for C3: a concrete succeeding cancel, a concrete "does not exist"
failure and a concrete other failure show all three branches. -/
theorem c3_witness :
    (kill (cancelClientOf (.ok ())) "j" 30).1 = .ok () ∧
    (kill (cancelClientOf (.error "job does not exist anymore")) "j" 30).1
      = .error (.jobNotFound
          ("Cannot stop Vertex AI job; the job name " ++ "j" ++ " could not be found.")) ∧
    (kill (cancelClientOf (.error "permission denied")) "j" 30).1
      = .error (.cancellationError "permission denied") := by
  refine ⟨?_, ?_, ?_⟩
  · exact (c3_kill_error_translation (cancelClientOf (.ok ())) "j" 30).1 rfl
  · exact ((c3_kill_error_translation (cancelClientOf
      (.error "job does not exist anymore")) "j" 30).2
        "job does not exist anymore" rfl).1 (by decide)
  · exact ((c3_kill_error_translation (cancelClientOf
      (.error "permission denied")) "j" 30).2
        "permission denied" rfl).2 (by decide)

/-! ### Claim C5 -/

/-- C5: the built job spec's single worker pool carries a container
environment that is the Python merge of the base environment with the
user-supplied environment, user entries winning on key collision and
single-sided keys keeping their value: looking up any key in the built entry
list returns the user value when present, else the base value. -/
theorem c5_env_merge (self : VertexAICustomTrainingJob)
    (base : List (String × String)) (spec : CustomJobSpec) (k : String)
    (h : build_job_spec self base = .ok spec) :
    ∃ wps, spec.worker_pool_specs = [wps] ∧
      envLookup wps.container_spec.env k
        = (lookup? self.env k).or (lookup? base k) := by
  unfold build_job_spec at h
  cases hsa : pyOrStr self.service_account self.credentials_service_account with
  | none => rw [hsa] at h; cases h
  | some sa =>
    rw [hsa] at h
    obtain rfl : _ = spec := by injection h
    exact ⟨_, rfl, by rw [envLookup_mapMk, lookup?_dictUnion]⟩

/-- Witness for C5: with user env `KEY=override, ONLY_USER=u1` and base env
`KEY=base, ONLY_BASE=b1`, the built entry for KEY is the user's "override". -/
theorem c5_witness :
    (build_job_spec cfgEnv baseEnv).map
        (fun spec => spec.worker_pool_specs.map fun w => envLookup w.container_spec.env "KEY")
      = .ok [some "override"] ∧
    (lookup? cfgEnv.env "KEY").or (lookup? baseEnv "KEY") = some "override" := by
  obtain ⟨wps, hw, hk⟩ := c5_env_merge cfgEnv baseEnv _ "KEY" rfl
  have hgoal : ∀ sp : CustomJobSpec, sp.worker_pool_specs = [wps] →
      sp.worker_pool_specs.map (fun w => envLookup w.container_spec.env "KEY")
        = [some "override"] := by
    intro sp hsp
    rw [hsp, List.map_cons, List.map_nil, hk]
    rfl
  exact ⟨congrArg Except.ok (hgoal _ hw), rfl⟩

/-! ### Claim C6 -/

/-- C6: on the scripted client whose successive polls return QUEUED, QUEUED,
RUNNING, SUCCEEDED (QUEUED being the state at submission), `run()` returns
`status_code = 0` and the watch loop emits exactly the two transition
notifications QUEUED→RUNNING and RUNNING→SUCCEEDED — not one per poll. -/
theorem c6_two_transitions :
    (run cfgOk [] suffN c6client true 20).map RunTrace.result
      = some (.ok ⟨"repo-", 0⟩) ∧
    ((run cfgOk [] suffN c6client true 20).map
        fun tr => tr.events.filter isTransitionEvent)
      = some [.transitionLog .JOB_STATE_QUEUED .JOB_STATE_RUNNING,
              .transitionLog .JOB_STATE_RUNNING .JOB_STATE_SUCCEEDED] ∧
    ((run cfgOk [] suffN c6client true 20).map
        fun tr => (tr.events.filter isGetEvent).length)
      = some 4 := by
  exact ⟨rfl, rfl, rfl⟩

/-! ### Claim C9 -/

/-- C9: `preview` renders the would-be submission payload and performs no
remote call of any kind — its event trace is empty, so in particular no
creation call is ever issued. -/
theorem c9_preview_no_remote_interaction (self : VertexAICustomTrainingJob)
    (base : List (String × String)) (uniqueSuffix : String) :
    (preview self base uniqueSuffix).2 = [] := rfl

/-! ### Claim C10 -/

/-- C10 (implicit): `run()` raises the remote-execution error on any final
snapshot with a non-empty error message regardless of its terminal state
(the message check precedes the state check), so every non-raising run saw an
empty error message, and `status_code = 0` holds exactly when the final state
is `JOB_STATE_SUCCEEDED`. -/
theorem c10_error_message_checked_before_state
    (self : VertexAICustomTrainingJob) (base : List (String × String))
    (suffixes : Nat → String) (client : JobServiceClient) (ts : Bool) (fuel : Nat)
    (trace : RunTrace)
    (hrun : run self base suffixes client ts fuel = some trace) :
    (∀ final, trace.finalRun = some final → final.errorMessage ≠ "" →
      trace.result = .error (.remoteExecutionError
        (logLabel self ++ ": " ++ final.errorMessage))) ∧
    (∀ r, trace.result = .ok r →
      ∃ final, trace.finalRun = some final ∧ final.errorMessage = "" ∧
        (r.status_code = 0 ↔ final.state = .JOB_STATE_SUCCEEDED)) := by
  rcases run_spec self base suffixes client ts fuel trace hrun with ⟨hn, e, he⟩ | ⟨f, hf, hcond⟩
  · constructor
    · intro final hfin
      rw [hn] at hfin
      cases hfin
    · intro r hr
      rw [he] at hr
      cases hr
  · constructor
    · intro final hfin hne
      rw [hf] at hfin
      obtain rfl : f = final := by injection hfin
      rw [if_neg hne] at hcond
      exact hcond
    · intro r hr
      by_cases hmsg : f.errorMessage = ""
      · rw [if_pos hmsg] at hcond
        rw [hcond] at hr
        obtain rfl : _ = r := by injection hr
        refine ⟨f, hf, hmsg, ?_⟩
        by_cases hs : f.state = .JOB_STATE_SUCCEEDED
        · simp [hs]
        · simp [hs]
      · rw [if_neg hmsg] at hcond
        rw [hcond] at hr
        cases hr

/-- Witness for C10: a final snapshot with state SUCCEEDED but a non-empty
error message still makes `run()` raise the remote-execution error. -/
theorem c10_witness :
    (run cfgOk [] suffN c10client true 20).map RunTrace.result
      = some (.error (.remoteExecutionError
          (logLabel cfgOk ++ ": " ++ "late failure"))) := by
  have h := c10_error_message_checked_before_state
    cfgOk [] suffN c10client true 20 _ rfl
  exact congrArg some (h.1 _ rfl (by decide))

/-! ### Claim C1 -/

/-- C1 counterexample: the claim says a transient failure of a single poll
(the remote `get_custom_job` call failing) is swallowed inside the watch loop
and never by itself terminates the watch abnormally.  On the code, the call
has no try/except around it: with a client whose very first poll raises, the
whole `run()` aborts with that poll error — which is not the deadline error —
on a concrete input whose deadline (100) is nowhere near exceeded. -/
theorem c1_counterexample :
    (run cfgOk [] suffN c1client true 10).map RunTrace.result
      = some (.error (.pollError "transient error")) := rfl

/-- C1 (amended): a poll that completes but reports no new state (the job
momentarily not describable, per the source's own comment) is swallowed —
logged at debug severity — and retried on the next tick with the deadline
still enforced; as long as every `get_custom_job` call itself returns, the
watch loop never produces a poll-failure abort, so it can only end in a
terminal snapshot or the deadline error.  An exception raised by the call
itself, however, propagates immediately (see the counterexample). -/
theorem c1_amended_no_abort_when_polls_return
    (get : Nat → String → Except String CustomJobSnapshot) (name : String)
    (untilStates : List JobState) (p : Nat) (timeout : Option Nat)
    (hok : ∀ i e, get i name ≠ .error e) :
    ∀ fuel i last res evs,
      watchGo get name untilStates p timeout i last fuel = some (res, evs) →
      ∀ msg, res ≠ .pollErr msg := by
  intro fuel
  induction fuel with
  | zero => intro i last res evs h; simp [watchGo] at h
  | succ n ih =>
    intro i last res evs h msg
    rw [watchGo] at h
    split at h
    · rename_i e heq
      exact absurd heq (hok i e)
    · split at h
      · cases h
        intro hc
        cases hc
      · split at h
        · cases h
          intro hc
          cases hc
        · split at h
          · cases h
          · rename_i res' evs' heq
            cases h
            exact ih _ _ _ _ heq msg

/-- Witness for C1 (amended): on the concrete always-RUNNING script the watch
finishes (here in the deadline error) and its outcome is provably not a
poll-failure abort. -/
theorem c1_witness :
    (watchGo c7client.get_custom_job "j" until_states_run 1 (some 2) 0
        .JOB_STATE_QUEUED 4).map Prod.fst = some (.timeoutErr 3) ∧
    WatchResult.timeoutErr 3 ≠ .pollErr "transient error" := by
  refine ⟨rfl, ?_⟩
  exact c1_amended_no_abort_when_polls_return
    c7client.get_custom_job "j" until_states_run 1 (some 2)
    (fun _ _ h => nomatch h) 4 0 .JOB_STATE_QUEUED _ _ rfl "transient error"

/-! ### Claim C7 -/

/-- C7: with a finite deadline `T`, a positive poll interval `p` and a job
whose polls always return a non-terminal state, the watch loop terminates by
raising the deadline error (`WatchTimeoutError` in the spec) at the first
iteration whose elapsed time `i * p` exceeds `T`: it polls exactly
`T / p + 2` times (approximately `T / p` iterations — never 0, so not
immediately, and never unboundedly), the elapsed time at the raise lies in
`(T, T + p]`, and the deadline check runs on every iteration — no poll here
ever fails, yet the deadline still fires. -/
theorem c7_deadline_terminates_watch (self : VertexAICustomTrainingJob)
    (client : JobServiceClient) (name : String) (untilStates : List JobState)
    (T : Nat) (current_state : JobState) (fuel : Nat)
    (hp : 0 < self.job_watch_poll_interval)
    (hU : JobState.JOB_STATE_UNSPECIFIED ∉ untilStates)
    (hok : ∀ i, ∃ s, client.get_custom_job i name = .ok s ∧ s.state ∉ untilStates)
    (hfuel : T / self.job_watch_poll_interval + 2 ≤ fuel) :
    ∃ evs,
      watch_job_run self name client current_state untilStates (some T) fuel
        = some (.timeoutErr ((T / self.job_watch_poll_interval + 1)
            * self.job_watch_poll_interval), evs) ∧
      (evs.filter isGetEvent).length = T / self.job_watch_poll_interval + 2 ∧
      T < (T / self.job_watch_poll_interval + 1) * self.job_watch_poll_interval ∧
      (T / self.job_watch_poll_interval + 1) * self.job_watch_poll_interval
        ≤ T + self.job_watch_poll_interval := by
  obtain ⟨evs, heq, hlen⟩ := watchGo_timeout_aux client.get_custom_job name untilStates
    T self.job_watch_poll_interval hp hok fuel 0 current_state (Nat.zero_le _)
    (Nat.lt_of_lt_of_le (Nat.lt_succ_self _) hfuel)
  refine ⟨evs, ?_, by simpa [Nat.add_assoc] using hlen, deadline_hit T _ hp, ?_⟩
  · rw [watch_job_run, if_neg hU]
    exact heq
  · have h2 : (T / self.job_watch_poll_interval) * self.job_watch_poll_interval ≤ T :=
      Nat.div_mul_le_self T self.job_watch_poll_interval
    have h3 : (T / self.job_watch_poll_interval + 1) * self.job_watch_poll_interval
        = (T / self.job_watch_poll_interval) * self.job_watch_poll_interval
          + self.job_watch_poll_interval := by ring
    rw [h3]
    exact Nat.add_le_add_right h2 _

/-- Witness for C7: poll interval 1, deadline 2, never-terminal script — the
watch raises the deadline error with elapsed time `(2 / 1 + 1) * 1 = 3` after
exactly `2 / 1 + 2 = 4` polls. -/
theorem c7_witness :
    0 < cfgOk.job_watch_poll_interval ∧
    (watch_job_run cfgOk "j" c7client .JOB_STATE_QUEUED until_states_run (some 2) 4).map
        Prod.fst
      = some (.timeoutErr ((2 / cfgOk.job_watch_poll_interval + 1)
          * cfgOk.job_watch_poll_interval)) ∧
    2 < (2 / cfgOk.job_watch_poll_interval + 1) * cfgOk.job_watch_poll_interval := by
  obtain ⟨evs, h1, h2, h3, h4⟩ := c7_deadline_terminates_watch cfgOk c7client "j"
    until_states_run 2 .JOB_STATE_QUEUED 4 (by decide) (by decide)
    (fun i => ⟨snapFix .JOB_STATE_RUNNING "", rfl, by decide⟩) (by decide)
  refine ⟨by decide, ?_, h3⟩
  rw [h1]
  rfl

/-! ### Claim C4 -/

/-- C4 counterexample: the claim says that with an image reference of fewer
than 3 path segments both spec building and display-name generation fail.  On
the code, `_build_job_spec` never inspects the image path shape: with the
2-segment image "a/b" and a service account present it succeeds. -/
theorem c4_counterexample :
    (pySplit cfgShort.image '/').length < 3 ∧
    isOkSpec (build_job_spec cfgShort []) = true := by
  exact ⟨by decide, rfl⟩

/-- C4 (amended): with an image reference of fewer than 3 path segments,
display-name generation fails with the configuration error, and so does every
operation that derives a display name — `preview` and `run` — with `run`
raising a configuration error before any remote call (its event trace is
empty); spec building itself does not validate the image shape. -/
theorem c4_amended_name_generation_fails (self : VertexAICustomTrainingJob)
    (base : List (String × String)) (suffixes : Nat → String)
    (client : JobServiceClient) (ts : Bool) (fuel : Nat)
    (him : (pySplit self.image '/').length < 3) :
    (∀ s, job_name self s = .error (.configurationError
      "The provided image must be from either Google Container Registry or Google Artifact Registry")) ∧
    (∀ s, ∃ m, (preview self base s).1 = .error (.configurationError m)) ∧
    (∀ trace, run self base suffixes client ts fuel = some trace →
      (∃ m, trace.result = .error (.configurationError m)) ∧ trace.events = []) := by
  have hjn := fun s => job_name_short_image self s him
  refine ⟨hjn, fun s => ?_, fun trace h => ?_⟩
  · cases hb : build_job_spec self base with
    | error e =>
      obtain ⟨m, rfl⟩ := build_job_spec_error_shape self base e hb
      refine ⟨m, ?_⟩
      simp only [preview, hb]
    | ok spec =>
      refine ⟨"The provided image must be from either Google Container Registry or Google Artifact Registry", ?_⟩
      simp only [preview, hb, hjn s]
  · cases hb : build_job_spec self base with
    | error e =>
      obtain ⟨m, rfl⟩ := build_job_spec_error_shape self base e hb
      simp only [run, hb] at h
      cases h
      exact ⟨⟨m, rfl⟩, rfl⟩
    | ok spec =>
      have hcab : create_and_begin_job self spec client suffixes 0
          = (.error (.configurationError
              "The provided image must be from either Google Container Registry or Google Artifact Registry"),
            []) := by
        simp only [create_and_begin_job, hjn (suffixes 0)]
      simp only [run, hb, hcab] at h
      cases h
      exact ⟨⟨_, rfl⟩, rfl⟩

/-- Witness for C4 (amended): on the concrete 2-segment image "a/b",
display-name generation, `preview` and `run` all fail with a configuration
error and the run's event trace is empty. -/
theorem c4_witness :
    job_name cfgShort "abc" = .error (.configurationError
      "The provided image must be from either Google Container Registry or Google Artifact Registry") ∧
    (preview cfgShort [] "abc").1 = .error (.configurationError
      "The provided image must be from either Google Container Registry or Google Artifact Registry") ∧
    (run cfgShort [] suffN c4client true 5).map RunTrace.result
      = some (.error (.configurationError
        "The provided image must be from either Google Container Registry or Google Artifact Registry")) ∧
    (run cfgShort [] suffN c4client true 5).map RunTrace.events = some [] := by
  have h := c4_amended_name_generation_fails cfgShort [] suffN c4client true 5 (by decide)
  exact ⟨h.1 "abc", rfl, rfl, rfl⟩

/-! ### Claim C8 -/

/-- C8 counterexample: the claim says the started callback receives the
display name of the job that was submitted.  On the code, `job_name` is a
property that generates a fresh random suffix on every access: the submission
uses the property's first access (display name "repo-" under the scripted
suffix supply) while `task_status.started` uses its fourth access
("repo-xxx") — a different name. -/
theorem c8_counterexample :
    ((run cfgOk [] suffN c8client true 20).map fun tr => tr.events.filter isStartedEvent)
      = some [.started "repo-xxx"] ∧
    ((run cfgOk [] suffN c8client true 20).map fun tr => tr.events.take 1)
      = some [.remoteCall (.createCustomJob "projects/proj/locations/us-east1" "repo-")] ∧
    "repo-xxx" ≠ "repo-" := by
  exact ⟨rfl, rfl, by decide⟩

/-- C8 (amended): with a caller-supplied started callback, the callback is
invoked exactly once, after the submission call succeeds and before any watch
activity: the event trace begins with the creation call followed immediately
by the callback, and no other callback event occurs.  The value passed is a
display name freshly generated by the same rule as the submitted one — the
same repo segment with suffix index 3 of the supply — not the submitted job's
display name, which used suffix index 0. -/
theorem c8_amended_started_callback (self : VertexAICustomTrainingJob)
    (base : List (String × String)) (suffixes : Nat → String)
    (client : JobServiceClient) (fuel : Nat)
    (spec : CustomJobSpec) (dn0 : String) (jr : CustomJobSnapshot)
    (hspec : build_job_spec self base = .ok spec)
    (hdn : job_name self (suffixes 0) = .ok dn0)
    (hcreate : client.create_custom_job (parentResource self) dn0 spec = .ok jr) :
    ∀ trace, run self base suffixes client true fuel = some trace →
      ∃ repo, dn0 = repo ++ "-" ++ suffixes 0 ∧
        trace.events.filter isStartedEvent = [.started (repo ++ "-" ++ suffixes 3)] ∧
        ∃ rest, trace.events
          = .remoteCall (.createCustomJob (parentResource self) dn0)
            :: .started (repo ++ "-" ++ suffixes 3) :: rest := by
  intro trace h
  obtain ⟨repo, hrepo, hdn0eq⟩ := job_name_ok_shape self (suffixes 0) dn0 hdn
  have hdn3 : job_name self (suffixes 3) = .ok (repo ++ "-" ++ suffixes 3) := by
    unfold job_name
    rw [hrepo]
  have hcab : create_and_begin_job self spec client suffixes 0 = (.ok (jr, 3),
      [.remoteCall (.createCustomJob (parentResource self) dn0)]) := by
    simp only [create_and_begin_job, hdn, hcreate]
  simp only [run, hspec, hcab, hdn3, Except.map] at h
  refine ⟨repo, hdn0eq, ?_⟩
  have hU : ¬ (JobState.JOB_STATE_UNSPECIFIED ∈ until_states_run) := by decide
  split at h
  · cases h
  · rename_i e wevs hw
    have hwnost : wevs.filter isStartedEvent = [] := by
      rw [watch_job_run, if_neg hU] at hw
      exact watchGo_no_started _ _ _ _ _ fuel 0 jr.state _ wevs hw
    cases h
    exact ⟨by simp [List.filter_append, List.filter_cons, isStartedEvent_remoteCall,
      isStartedEvent, hwnost], wevs, rfl⟩
  · rename_i t wevs hw
    have hwnost : wevs.filter isStartedEvent = [] := by
      rw [watch_job_run, if_neg hU] at hw
      exact watchGo_no_started _ _ _ _ _ fuel 0 jr.state _ wevs hw
    cases h
    exact ⟨by simp [List.filter_append, List.filter_cons, isStartedEvent_remoteCall,
      isStartedEvent, hwnost], wevs, rfl⟩
  · rename_i final wevs hw
    have hwnost : wevs.filter isStartedEvent = [] := by
      rw [watch_job_run, if_neg hU] at hw
      exact watchGo_no_started _ _ _ _ _ fuel 0 jr.state _ wevs hw
    split at h <;> cases h <;>
      exact ⟨by simp [List.filter_append, List.filter_cons, isStartedEvent_remoteCall,
        isStartedEvent, hwnost], wevs, rfl⟩

/-- Witness for C8 (amended): on the concrete echoing client the callback
fires exactly once, right after the creation call, with "repo-" ++ suffix 3 —
while the submitted display name used suffix 0. -/
theorem c8_witness :
    ((run cfgOk [] suffN c8client true 20).map fun tr => tr.events.filter isStartedEvent)
      = some [.started "repo-xxx"] ∧
    ((run cfgOk [] suffN c8client true 20).map fun tr => tr.events.take 2)
      = some [.remoteCall (.createCustomJob (parentResource cfgOk) "repo-"),
              .started "repo-xxx"] := by
  have _h := c8_amended_started_callback cfgOk [] suffN c8client 20 _ "repo-" _
    rfl rfl rfl _ rfl
  exact ⟨rfl, rfl⟩

end PrefectGcp
